import Mathlib

/-!
Verification of `craft_archives/repo/apt_sources_manager.py`.

The module manages the host's apt source repository configuration: it
canonicalizes three kinds of repository descriptors (plain apt, PPA, UCA
cloud archive), renders deb-822 source stanzas, and synchronizes them to
files under a sources directory, registering extra dpkg architectures for
changed plain repositories.

The embedding below translates the module function by function.  The
filesystem is modelled as a journal of writes (most recent first), so that
"no write happened" is distinguishable from "a write of identical content
happened".  External collaborators (host architecture, distro codename,
keyring path resolution, Launchpad key lookup, UCA release compatibility,
`dpkg --add-architecture` success) are fields of an `Env` record held fixed
during a run.
-/

namespace CraftArchives

/-- External facts and collaborators, held fixed during a run.
`hostArchitecture` models `utils.get_host_architecture()`; `codename`
models `distro.codename()`; `keyringFor key_id base` models
`apt_key_manager.get_keyring_path(key_id, base_path=base)` (modelled from
the spec: `resolve_keyring_path(key_identifier, base_directory) -> path`,
the module `apt_key_manager` is not part of the sources); `isFile` models
`pathlib.Path.is_file`; `ppaKeyId` models
`apt_ppa.get_launchpad_ppa_key_id` (modelled from the spec:
`lookup_ppa_key(ppa_string) -> key_identifier`); `ucaCompatible` is the
compatibility fact consulted by `apt_uca.check_release_compatibility`;
`addArchOk arch` tells whether `dpkg --add-architecture arch` exits
successfully. -/
structure Env where
  hostArchitecture : String
  codename : String
  keyringFor : String → String → String
  isFile : String → Bool
  ppaKeyId : String → String
  ucaCompatible : String → String → String → Bool
  addArchOk : String → Bool

/-- Errors raised by the module.  Modelled from the spec: the module
`errors.py` is not part of the sources; the spec lists keyring-missing
(carrying the path), PPA-format (carrying the original string),
cloud-compatibility (carrying cloud, pocket, codename) errors.
`runtimeError` models Python's `RuntimeError`, and `calledProcessError`
models `subprocess.CalledProcessError` from a failed
`dpkg --add-architecture` call. -/
inductive AptError where
  | aptGPGKeyringError (keyring_path : String)
  | aptPPAInstallError (ppa : String)
  | aptUCAInstallError (cloud : String) (pocket : String) (codename : String)
  | runtimeError (msg : String)
  | calledProcessError (arch : String)
deriving DecidableEq, Repr

/-- The sources directory, as a journal of writes: most recent write first.
Recording every write keeps "unchanged, no write" observably different from
"rewrote identical bytes". -/
abbrev FS : Type := List (String × String)

/-- Empty directory state. -/
def FS.empty : FS := ([] : List (String × String))

/-- Current content of the file at path `p`, if it exists
(`Path.exists` + `Path.read_text`). -/
def FS.read (fs : FS) (p : String) : Option String :=
  (List.find? (fun e => e.1 == p) fs).map (fun e => e.2)

/-- `Path.write_text`: record a write of content `c` at path `p`. -/
def FS.write (fs : FS) (p c : String) : FS :=
  ((p, c) :: fs : List (String × String))

/-- Python truthiness of an `Optional[List[str]]`: `None` and `[]` are falsy. -/
def truthyList (l : Option (List String)) : Bool :=
  match l with
  | none => false
  | some l => !l.isEmpty

/-- Python truthiness of an `Optional[str]`: `None` and `""` are falsy. -/
def truthyStr (s : Option String) : Bool :=
  match s with
  | none => false
  | some s => !s.isEmpty

/-- `str.endswith("/")`: the last character is a slash. -/
def endsWithSlash (s : String) : Bool :=
  s.data.getLast? == some '/'

/-- `str.split(c)` on a single-character separator, over the character list. -/
def splitChar (c : Char) : List Char → List (List Char)
  | [] => [[]]
  | x :: xs =>
    match splitChar c xs with
    | [] => if x = c then [[], []] else [[x]]
    | y :: ys => if x = c then [] :: y :: ys else (x :: y) :: ys

/-- `_construct_deb822_source`: render a deb-822 stanza by sequentially
appending one `Field: value` line per `print` call of the Python code. -/
def construct_deb822_source (host_architecture : String)
    (architectures components formats : Option (List String))
    (suites : List String) (url : String) (signed_by : String) : String :=
  let type_text := if truthyList formats then String.intercalate " " (formats.getD []) else "deb"
  let out := "Types: " ++ type_text ++ "\n"
  let out := out ++ "URIs: " ++ url ++ "\n"
  let out := out ++ "Suites: " ++ String.intercalate " " suites ++ "\n"
  let out := if truthyList components then
      out ++ "Components: " ++ String.intercalate " " (components.getD []) ++ "\n"
    else out
  let arch_text := if truthyList architectures then
      String.intercalate " " (architectures.getD [])
    else host_architecture
  let out := out ++ "Architectures: " ++ arch_text ++ "\n"
  out ++ "Signed-By: " ++ signed_by ++ "\n"

/-- Plain apt repository descriptor.  Modelled from the spec: the module
`package_repository.py` is not part of the sources; the spec's Plain
variant carries an optional suite list, optional component list, optional
format list, optional architecture list, a required signing-key
identifier, a required URL, an optional exact sub-path, and its own
`name` field. -/
structure PackageRepositoryApt where
  architectures : Option (List String)
  components : Option (List String)
  formats : Option (List String)
  path : Option String
  suites : Option (List String)
  key_id : String
  url : String
  name : String
deriving DecidableEq, Repr

/-- PPA repository descriptor: a single string `owner/name`.  Modelled from
the spec (`package_repository.py` is not part of the sources). -/
structure PackageRepositoryAptPPA where
  ppa : String
deriving DecidableEq, Repr

/-- UCA cloud-archive repository descriptor: cloud codename and pocket
name.  Modelled from the spec (`package_repository.py` is not part of the
sources). -/
structure PackageRepositoryAptUCA where
  cloud : String
  pocket : String
deriving DecidableEq, Repr

/-- The closed tagged union of repository descriptors. -/
inductive PackageRepository where
  | apt (repo : PackageRepositoryApt)
  | ppa (repo : PackageRepositoryAptPPA)
  | uca (repo : PackageRepositoryAptUCA)
deriving DecidableEq, Repr

/-- `apt_ppa.split_ppa_parts`.  Modelled from the spec: `apt_ppa.py` is not
part of the sources; the spec says `split_ppa(string) -> (owner, name)`
parses the `owner/name` shape and a malformed string (no separating slash)
fails with a PPA-format error naming the original string. -/
def split_ppa_parts (ppa : String) : Except AptError (String × String) :=
  match (splitChar '/' ppa.data).map (fun l => String.mk l) with
  | [owner, name] => Except.ok (owner, name)
  | _ => Except.error (AptError.aptPPAInstallError ppa)

/-- `apt_uca.check_release_compatibility`.  Modelled from the spec:
`apt_uca.py` is not part of the sources; the spec says
`check_compatible(codename, cloud, pocket)` fails, naming cloud, pocket
and host codename, exactly when the combination is incompatible. -/
def check_release_compatibility (env : Env) (codename cloud pocket : String) :
    Except AptError Unit :=
  if env.ucaCompatible codename cloud pocket then Except.ok ()
  else Except.error (AptError.aptUCAInstallError cloud pocket codename)

/-- `package_repository.UCA_ARCHIVE`: the fixed well-known cloud-archive
base URL.  Modelled from the spec (`package_repository.py` is not part of
the sources). -/
def UCA_ARCHIVE : String := "http://ubuntu-cloud.archive.canonical.com/ubuntu"

/-- `package_repository.UCA_KEY_ID`: the fixed well-known cloud-archive
signing key identifier.  Modelled from the spec (`package_repository.py`
is not part of the sources). -/
def UCA_KEY_ID : String := "391A9AA2147192839E9DB0315EDB1B62EC4926EA"

/-- Manager configuration: the sources directory and the keyrings
directory chosen at construction. -/
structure AptSourcesManager where
  sources_list_d : String
  keyrings_dir : String
deriving DecidableEq, Repr

/-- Filename derivation inside `AptSourcesManager._install_sources`: the
reserved names `default` and `default-security` pass through, every other
name gains the `craft-` prefix; the `.sources` suffix is appended. -/
def sourcesFileName (name : String) : String :=
  (if (["default", "default-security"] : List String).contains name then name
   else "craft-" ++ name) ++ ".sources"

/-- `AptSourcesManager._install_sources`: raise if the keyring path is not
an existing regular file (a `pathlib.Path` is always truthy, so the Python
guard `if keyring_path and not keyring_path.is_file()` reduces to the
`is_file` test); render the stanza; derive the target path; if the file
exists with identical content report unchanged without writing, otherwise
write and report changed.  Returns the directory state at return or raise
time together with the outcome. -/
def AptSourcesManager.install_sources (mgr : AptSourcesManager) (env : Env) (fs : FS)
    (architectures components formats : Option (List String)) (name : String)
    (suites : List String) (url : String) (keyring_path : String) :
    FS × Except AptError Bool :=
  if !env.isFile keyring_path then
    (fs, Except.error (AptError.aptGPGKeyringError keyring_path))
  else
    let config := construct_deb822_source env.hostArchitecture architectures components
      formats suites url keyring_path
    let config_path := mgr.sources_list_d ++ "/" ++ sourcesFileName name
    match FS.read fs config_path with
    | some existing =>
      if existing = config then (fs, Except.ok false)
      else (FS.write fs config_path config, Except.ok true)
    | none => (FS.write fs config_path config, Except.ok true)

/-- Suite-list derivation of `AptSourcesManager._install_sources_apt`:
bare repository (no path, no components, no suites) becomes `["/"]`; a
path becomes a single suite with a trailing slash enforced; otherwise the
descriptor's suites are used; the remaining (unreachable) case raises
`RuntimeError`. -/
def apt_suites (package_repo : PackageRepositoryApt) : Except AptError (List String) :=
  if !truthyStr package_repo.path && !truthyList package_repo.components
      && !truthyList package_repo.suites then
    Except.ok ["/"]
  else if truthyStr package_repo.path then
    let path := package_repo.path.getD ""
    let path := if !endsWithSlash path then path ++ "/" else path
    Except.ok [path]
  else if truthyList package_repo.suites then
    Except.ok (package_repo.suites.getD [])
  else
    Except.error (AptError.runtimeError "no suites or path")

/-- `AptSourcesManager._install_sources_apt`: derive the suites, resolve
the keyring path from the descriptor's key id, and install. -/
def AptSourcesManager.install_sources_apt (mgr : AptSourcesManager) (env : Env)
    (fs : FS) (package_repo : PackageRepositoryApt) : FS × Except AptError Bool :=
  match apt_suites package_repo with
  | Except.error e => (fs, Except.error e)
  | Except.ok suites =>
    let keyring_path := env.keyringFor package_repo.key_id mgr.keyrings_dir
    mgr.install_sources env fs package_repo.architectures package_repo.components
      package_repo.formats package_repo.name suites package_repo.url keyring_path

/-- `AptSourcesManager._install_sources_ppa`: split the PPA string into
owner and name, look up the Launchpad signing key for the original PPA
string, resolve its keyring path, and install with components `["main"]`,
formats `["deb"]`, suites `[codename]`, the Launchpad URL and the
`ppa-<owner>_<name>` record name. -/
def AptSourcesManager.install_sources_ppa (mgr : AptSourcesManager) (env : Env)
    (fs : FS) (package_repo : PackageRepositoryAptPPA) : FS × Except AptError Bool :=
  match split_ppa_parts package_repo.ppa with
  | Except.error e => (fs, Except.error e)
  | Except.ok (owner, name) =>
    let codename := env.codename
    let key_id := env.ppaKeyId package_repo.ppa
    let keyring_path := env.keyringFor key_id mgr.keyrings_dir
    mgr.install_sources env fs none (some ["main"]) (some ["deb"])
      ("ppa-" ++ owner ++ "_" ++ name) [codename]
      ("http://ppa.launchpad.net/" ++ owner ++ "/" ++ name ++ "/ubuntu") keyring_path

/-- `AptSourcesManager._install_sources_uca`: check release compatibility
of (codename, cloud, pocket), resolve the fixed UCA key's keyring path,
and install with components `["main"]`, formats `["deb"]`, suites
`["<codename>-<pocket>/<cloud>"]`, the fixed UCA URL and the
`cloud-<cloud>` record name. -/
def AptSourcesManager.install_sources_uca (mgr : AptSourcesManager) (env : Env)
    (fs : FS) (package_repo : PackageRepositoryAptUCA) : FS × Except AptError Bool :=
  let cloud := package_repo.cloud
  let pocket := package_repo.pocket
  let codename := env.codename
  match check_release_compatibility env codename cloud pocket with
  | Except.error e => (fs, Except.error e)
  | Except.ok _ =>
    let keyring_path := env.keyringFor UCA_KEY_ID mgr.keyrings_dir
    mgr.install_sources env fs none (some ["main"]) (some ["deb"])
      ("cloud-" ++ cloud) [codename ++ "-" ++ pocket ++ "/" ++ cloud]
      UCA_ARCHIVE keyring_path

/-- `_add_architecture`: run `dpkg --add-architecture` for each
architecture in list order.  Returns the trace of invocations actually
made together with the error of the first failing invocation, if any;
`check=True` raises there, so later architectures are not attempted. -/
def add_architecture (env : Env) : List String → List String × Option AptError
  | [] => ([], none)
  | arch :: rest =>
    if env.addArchOk arch then
      let r := add_architecture env rest
      (arch :: r.1, r.2)
    else
      ([arch], some (AptError.calledProcessError arch))

/-- Outcome of `install_package_repository_sources`: directory state at
return or raise time, the trace of `dpkg --add-architecture` invocations
made, and either the returned changed flag or the raised error. -/
structure RunResult where
  fs : FS
  archCalls : List String
  result : Except AptError Bool
deriving Repr

/-- `AptSourcesManager.install_package_repository_sources`: dispatch on
the descriptor variant; for a plain apt repository, additionally register
the declared architectures when the source configuration changed and the
architecture list is truthy. -/
def AptSourcesManager.install_package_repository_sources (mgr : AptSourcesManager)
    (env : Env) (fs : FS) (package_repo : PackageRepository) : RunResult :=
  match package_repo with
  | PackageRepository.ppa repo =>
    let r := mgr.install_sources_ppa env fs repo
    { fs := r.1, archCalls := [], result := r.2 }
  | PackageRepository.uca repo =>
    let r := mgr.install_sources_uca env fs repo
    { fs := r.1, archCalls := [], result := r.2 }
  | PackageRepository.apt repo =>
    let r := mgr.install_sources_apt env fs repo
    match r.2 with
    | Except.error e => { fs := r.1, archCalls := [], result := Except.error e }
    | Except.ok changed =>
      if changed && truthyList repo.architectures then
        let a := add_architecture env (repo.architectures.getD [])
        match a.2 with
        | some e => { fs := r.1, archCalls := a.1, result := Except.error e }
        | none => { fs := r.1, archCalls := a.1, result := Except.ok changed }
      else { fs := r.1, archCalls := [], result := Except.ok changed }

/-! ## Specification-side renderer

A second formulation of the deb-822 renderer, following the words of the
spec: an ordered list of field lines (Types, URIs, Suites, an optional
Components line, Architectures, Signed-By), joined by newlines and
terminated by exactly one trailing newline.  The renderer of the code is
proved equal to it. -/

/-- The ordered field lines of a canonical source record, as the spec
words them: Types, URIs, Suites, Components (omitted entirely when the
component list is empty or absent), Architectures, Signed-By; each
multi-value field space-joined; Types defaulting to deb and Architectures
to the host architecture. -/
def deb822FieldLines (host_architecture : String)
    (architectures components formats : Option (List String))
    (suites : List String) (url : String) (signed_by : String) : List String :=
  ["Types: " ++ (if truthyList formats then String.intercalate " " (formats.getD []) else "deb"),
   "URIs: " ++ url,
   "Suites: " ++ String.intercalate " " suites]
  ++ (if truthyList components then
        ["Components: " ++ String.intercalate " " (components.getD [])]
      else [])
  ++ ["Architectures: " ++ (if truthyList architectures then
        String.intercalate " " (architectures.getD []) else host_architecture),
      "Signed-By: " ++ signed_by]

/-- The spec's rendering: the field lines joined by newlines, with exactly
one trailing newline after the final (Signed-By) line. -/
def deb822_spec_render (host_architecture : String)
    (architectures components formats : Option (List String))
    (suites : List String) (url : String) (signed_by : String) : String :=
  String.intercalate "\n" (deb822FieldLines host_architecture architectures components
    formats suites url signed_by) ++ "\n"

/-- The lines of a rendered stanza: the rendered text split at newlines. -/
def strLines (s : String) : List String :=
  (splitChar '\n' s.data).map (fun l => String.mk l)

/-! ## Concrete fixtures used by witnesses and counterexamples -/

/-- A concrete environment in which every keyring file exists, every cloud
combination is compatible and every dpkg architecture call succeeds. -/
def wEnv : Env :=
  { hostArchitecture := "amd64", codename := "jammy"
    keyringFor := fun key_id base => base ++ "/craft-" ++ key_id ++ ".gpg"
    isFile := fun _ => true, ppaKeyId := fun _ => "PPAKEY"
    ucaCompatible := fun _ _ _ => true, addArchOk := fun _ => true }

/-- Like `wEnv` but `dpkg --add-architecture` fails for every architecture
except amd64. -/
def wEnvArchFail : Env := { wEnv with addArchOk := fun arch => arch == "amd64" }

/-- Like `wEnv` but no resolved keyring path is an existing regular file. -/
def wEnvNoFile : Env := { wEnv with isFile := fun _ => false }

/-- Like `wEnv` but every cloud combination is incompatible. -/
def wEnvIncompat : Env := { wEnv with ucaCompatible := fun _ _ _ => false }

/-- A concrete manager configuration. -/
def wMgr : AptSourcesManager :=
  { sources_list_d := "/etc/apt/sources.list.d", keyrings_dir := "/etc/apt/keyrings" }

/-- A concrete plain repository with suites, components and two declared
architectures. -/
def wAptRepo : PackageRepositoryApt :=
  { architectures := some ["amd64", "arm64"], components := some ["main"]
    formats := some ["deb", "deb-src"], path := none
    suites := some ["jammy", "jammy-updates"], key_id := "KEYID"
    url := "http://test.url/ubuntu", name := "test" }

/-- A concrete plain repository carrying both a path and a component
list. -/
def wPathCompRepo : PackageRepositoryApt :=
  { architectures := none, components := some ["main"], formats := none
    path := some "dir/subdir", suites := none, key_id := "KEYID"
    url := "http://test.url/ubuntu", name := "pathcomp" }

/-- A concrete plain repository carrying a path and no component list. -/
def wPathRepo : PackageRepositoryApt :=
  { architectures := none, components := none, formats := none
    path := some "dir/subdir", suites := none, key_id := "KEYID"
    url := "http://test.url/ubuntu", name := "pathonly" }

/-- A concrete bare plain repository: no path, no components, no suites. -/
def wBareRepo : PackageRepositoryApt :=
  { architectures := none, components := none, formats := none
    path := none, suites := none, key_id := "KEYID"
    url := "http://test.url/ubuntu", name := "bare" }

/-- A concrete well-formed PPA descriptor. -/
def wPpaRepo : PackageRepositoryAptPPA := { ppa := "deadsnakes/ppa" }

/-- A concrete malformed PPA descriptor (no slash). -/
def wBadPpaRepo : PackageRepositoryAptPPA := { ppa := "no-slash-here" }

/-- A concrete cloud descriptor. -/
def wUcaRepo : PackageRepositoryAptUCA := { cloud := "wallaby", pocket := "updates" }

/-! ## Helper lemmas -/

theorem intercalate_go_append (s x y : String) (l : List String) :
    String.intercalate.go (x ++ y) s l = x ++ String.intercalate.go y s l := by
  induction l generalizing y with
  | nil => rfl
  | cons a as ih =>
    show String.intercalate.go (x ++ y ++ s ++ a) s as
      = x ++ String.intercalate.go (y ++ s ++ a) s as
    rw [← ih (y ++ s ++ a)]
    simp [String.append_assoc]

theorem intercalate_cons (s a b : String) (l : List String) :
    String.intercalate s (a :: b :: l) = a ++ s ++ String.intercalate s (b :: l) := by
  show String.intercalate.go (a ++ s ++ b) s l = a ++ s ++ String.intercalate.go b s l
  exact intercalate_go_append s (a ++ s) b l

theorem intercalate_singleton (s a : String) : String.intercalate s [a] = a := rfl

theorem FS.read_write_self (fs : FS) (p c : String) :
    FS.read (FS.write fs p c) p = some c := by
  simp [FS.read, FS.write, List.find?]

theorem FS.read_empty (p : String) : FS.read FS.empty p = none := rfl


theorem install_sources_again (mgr : AptSourcesManager) (env : Env) (fs fs₁ : FS)
    (architectures components formats : Option (List String)) (name : String)
    (suites : List String) (url : String) (keyring_path : String) (b : Bool)
    (h : mgr.install_sources env fs architectures components formats name suites url
      keyring_path = (fs₁, Except.ok b)) :
    mgr.install_sources env fs₁ architectures components formats name suites url
      keyring_path = (fs₁, Except.ok false) := by
  simp only [AptSourcesManager.install_sources] at h ⊢
  split at h
  · simp at h
  · split at h
    · rename_i existing hread
      split at h
      · rename_i heq
        obtain ⟨rfl, -⟩ := Prod.mk.injEq .. ▸ h
        simp_all
      · rename_i hne
        obtain ⟨rfl, -⟩ := Prod.mk.injEq .. ▸ h
        simp_all [FS.read_write_self]
    · rename_i hread
      obtain ⟨rfl, -⟩ := Prod.mk.injEq .. ▸ h
      simp_all [FS.read_write_self]


theorem install_sources_empty_changed (mgr : AptSourcesManager) (env : Env) (fs₁ : FS)
    (architectures components formats : Option (List String)) (name : String)
    (suites : List String) (url : String) (keyring_path : String) (b : Bool)
    (h : mgr.install_sources env FS.empty architectures components formats name suites url
      keyring_path = (fs₁, Except.ok b)) : b = true := by
  simp only [AptSourcesManager.install_sources] at h
  split at h
  · simp at h
  · split at h
    · rename_i existing hread
      simp [FS.read_empty] at hread
    · injection h with h1 h2
      injection h2 with h3
      exact h3.symm

theorem install_sources_apt_again (mgr : AptSourcesManager) (env : Env) (fs fs₁ : FS)
    (repo : PackageRepositoryApt) (b : Bool)
    (h : mgr.install_sources_apt env fs repo = (fs₁, Except.ok b)) :
    mgr.install_sources_apt env fs₁ repo = (fs₁, Except.ok false) := by
  simp only [AptSourcesManager.install_sources_apt] at h ⊢
  split at h
  · simp at h
  · rename_i suites hs
    exact install_sources_again _ _ _ _ _ _ _ _ _ _ _ _ h

theorem install_sources_ppa_again (mgr : AptSourcesManager) (env : Env) (fs fs₁ : FS)
    (repo : PackageRepositoryAptPPA) (b : Bool)
    (h : mgr.install_sources_ppa env fs repo = (fs₁, Except.ok b)) :
    mgr.install_sources_ppa env fs₁ repo = (fs₁, Except.ok false) := by
  simp only [AptSourcesManager.install_sources_ppa] at h ⊢
  split at h
  · simp at h
  · rename_i owner name hs
    exact install_sources_again _ _ _ _ _ _ _ _ _ _ _ _ h

theorem install_sources_uca_again (mgr : AptSourcesManager) (env : Env) (fs fs₁ : FS)
    (repo : PackageRepositoryAptUCA) (b : Bool)
    (h : mgr.install_sources_uca env fs repo = (fs₁, Except.ok b)) :
    mgr.install_sources_uca env fs₁ repo = (fs₁, Except.ok false) := by
  simp only [AptSourcesManager.install_sources_uca] at h ⊢
  split at h
  · simp at h
  · rename_i u hs
    exact install_sources_again _ _ _ _ _ _ _ _ _ _ _ _ h

theorem install_pkg_apt_of_inst (mgr : AptSourcesManager) (env : Env) (fs fs₁ : FS)
    (repo : PackageRepositoryApt) (b : Bool)
    (h : mgr.install_sources_apt env fs repo = (fs₁, Except.ok b)) :
    mgr.install_package_repository_sources env fs (PackageRepository.apt repo) =
      (if b && truthyList repo.architectures then
        let a := add_architecture env (repo.architectures.getD [])
        match a.2 with
        | some e => { fs := fs₁, archCalls := a.1, result := Except.error e }
        | none => { fs := fs₁, archCalls := a.1, result := Except.ok b }
      else { fs := fs₁, archCalls := [], result := Except.ok b }) := by
  simp only [AptSourcesManager.install_package_repository_sources, h]


theorem add_architecture_all_ok (env : Env) (l : List String)
    (h : ∀ a ∈ l, env.addArchOk a = true) : add_architecture env l = (l, none) := by
  induction l with
  | nil => rfl
  | cons a as ih =>
    simp only [add_architecture, h a (List.mem_cons_self a as), if_true]
    rw [ih (fun x hx => h x (List.mem_cons_of_mem a hx))]

theorem add_architecture_first_fail (env : Env) (pre : List String) (a : String)
    (post : List String) (hpre : ∀ x ∈ pre, env.addArchOk x = true)
    (ha : env.addArchOk a = false) :
    add_architecture env (pre ++ a :: post) =
      (pre ++ [a], some (AptError.calledProcessError a)) := by
  induction pre with
  | nil => simp [add_architecture, ha]
  | cons x xs ih =>
    have hx := hpre x (List.mem_cons_self x xs)
    have ih2 := ih (fun y hy => hpre y (List.mem_cons_of_mem x hy))
    simp only [List.cons_append, add_architecture, hx, if_true, List.append_eq, ih2]

theorem install_sources_apt_empty_changed (mgr : AptSourcesManager) (env : Env)
    (fs₁ : FS) (repo : PackageRepositoryApt) (b : Bool)
    (h : mgr.install_sources_apt env FS.empty repo = (fs₁, Except.ok b)) : b = true := by
  simp only [AptSourcesManager.install_sources_apt] at h
  split at h
  · simp at h
  · exact install_sources_empty_changed _ _ _ _ _ _ _ _ _ _ _ h

theorem install_sources_ppa_empty_changed (mgr : AptSourcesManager) (env : Env)
    (fs₁ : FS) (repo : PackageRepositoryAptPPA) (b : Bool)
    (h : mgr.install_sources_ppa env FS.empty repo = (fs₁, Except.ok b)) : b = true := by
  simp only [AptSourcesManager.install_sources_ppa] at h
  split at h
  · simp at h
  · exact install_sources_empty_changed _ _ _ _ _ _ _ _ _ _ _ h

theorem install_sources_uca_empty_changed (mgr : AptSourcesManager) (env : Env)
    (fs₁ : FS) (repo : PackageRepositoryAptUCA) (b : Bool)
    (h : mgr.install_sources_uca env FS.empty repo = (fs₁, Except.ok b)) : b = true := by
  simp only [AptSourcesManager.install_sources_uca] at h
  split at h
  · simp at h
  · exact install_sources_empty_changed _ _ _ _ _ _ _ _ _ _ _ h

/-- C1: starting from an empty sources directory, a successful run of
`install_package_repository_sources` reports changed, and an immediately
repeated run with the same external facts reports unchanged, performs no
write (the write journal is unchanged, so the file content is identical
after both runs) and makes no architecture-registration call. -/
theorem install_idempotent (mgr : AptSourcesManager) (env : Env)
    (repo : PackageRepository) (fs₁ : FS) (calls : List String) (b : Bool)
    (h : mgr.install_package_repository_sources env FS.empty repo =
      { fs := fs₁, archCalls := calls, result := Except.ok b }) :
    b = true ∧ mgr.install_package_repository_sources env fs₁ repo =
      { fs := fs₁, archCalls := [], result := Except.ok false } := by
  cases repo with
  | ppa r =>
    simp only [AptSourcesManager.install_package_repository_sources] at h ⊢
    rcases hX : mgr.install_sources_ppa env FS.empty r with ⟨fs₂, res⟩
    rw [hX] at h
    simp only [RunResult.mk.injEq] at h
    obtain ⟨rfl, rfl, rfl⟩ := h
    refine ⟨install_sources_ppa_empty_changed _ _ _ _ _ hX, ?_⟩
    rw [install_sources_ppa_again _ _ _ _ _ _ hX]
  | uca r =>
    simp only [AptSourcesManager.install_package_repository_sources] at h ⊢
    rcases hX : mgr.install_sources_uca env FS.empty r with ⟨fs₂, res⟩
    rw [hX] at h
    simp only [RunResult.mk.injEq] at h
    obtain ⟨rfl, rfl, rfl⟩ := h
    refine ⟨install_sources_uca_empty_changed _ _ _ _ _ hX, ?_⟩
    rw [install_sources_uca_again _ _ _ _ _ _ hX]
  | apt r =>
    rcases hX : mgr.install_sources_apt env FS.empty r with ⟨fs₂, res⟩
    cases res with
    | error e =>
      simp only [AptSourcesManager.install_package_repository_sources] at h
      rw [hX] at h
      simp at h
    | ok changed =>
      have hc : changed = true := install_sources_apt_empty_changed _ _ _ _ _ hX
      subst hc
      have h2 := install_sources_apt_again _ _ _ _ _ _ hX
      have hfs : fs₁ = fs₂ ∧ b = true := by
        rw [install_pkg_apt_of_inst _ _ _ _ _ _ hX] at h
        split at h
        · dsimp only at h
          split at h
          · simp at h
          · simp only [RunResult.mk.injEq, Except.ok.injEq] at h
            exact ⟨h.1.symm, h.2.2.symm⟩
        · simp only [RunResult.mk.injEq, Except.ok.injEq] at h
          exact ⟨h.1.symm, h.2.2.symm⟩
      obtain ⟨rfl, rfl⟩ := hfs
      refine ⟨rfl, ?_⟩
      rw [install_pkg_apt_of_inst _ _ _ _ _ _ h2]
      simp


/-- Witness for C1 at a concrete plain repository. -/
theorem install_idempotent_witness :
    (wMgr.install_package_repository_sources wEnv FS.empty
      (PackageRepository.apt wAptRepo)).result = Except.ok true ∧
    wMgr.install_package_repository_sources wEnv
      (wMgr.install_package_repository_sources wEnv FS.empty
        (PackageRepository.apt wAptRepo)).fs (PackageRepository.apt wAptRepo) =
    { fs := (wMgr.install_package_repository_sources wEnv FS.empty
        (PackageRepository.apt wAptRepo)).fs,
      archCalls := [], result := Except.ok false } :=
  ⟨rfl, (install_idempotent wMgr wEnv (PackageRepository.apt wAptRepo) _ _ true rfl).2⟩

/-- C2: the renderer of the code agrees, for every input, with the spec's
formulation: the ordered field lines Types, URIs, Suites, Components
(omitted exactly when the component list is empty or absent, with Types
defaulting to deb and Architectures to the host architecture),
Architectures, Signed-By, joined by newlines with exactly one trailing
newline after the Signed-By line. -/
theorem construct_deb822_source_eq_spec (host_architecture : String)
    (architectures components formats : Option (List String))
    (suites : List String) (url : String) (signed_by : String) :
    construct_deb822_source host_architecture architectures components formats
      suites url signed_by =
    deb822_spec_render host_architecture architectures components formats
      suites url signed_by := by
  simp only [construct_deb822_source, deb822_spec_render, deb822FieldLines]
  cases hc : truthyList components <;>
    simp only [Bool.false_eq_true, if_false, eq_self_iff_true, if_true, List.append_eq,
      List.cons_append, List.nil_append, List.append_nil, intercalate_cons,
      intercalate_singleton] <;>
    apply String.ext <;>
    simp only [String.data_append, List.append_assoc]


theorem truthyList_none : truthyList none = false := rfl

theorem sourcesFileName_eq (name : String) :
    sourcesFileName name =
      (if name = "default" ∨ name = "default-security" then name
       else "craft-" ++ name) ++ ".sources" := by
  by_cases h1 : name = "default"
  · simp [sourcesFileName, h1]
  · by_cases h2 : name = "default-security"
    · simp [sourcesFileName, h1, h2]
    · simp [sourcesFileName, h1, h2]

/-- C3 counterexample: the plain descriptor with `path = "dir/subdir"` and
`components = ["main"]` renders a stanza whose lines do include a
Components line, contradicting the claim that descriptors with a path
never emit one. -/
theorem apt_path_components_emitted :
    truthyStr wPathCompRepo.path = true ∧
    wPathCompRepo.components = some ["main"] ∧
    (strLines ((FS.read (wMgr.install_sources_apt wEnv FS.empty wPathCompRepo).1
      "/etc/apt/sources.list.d/craft-pathcomp.sources").getD "")).contains
        "Components: main" = true := by
  refine ⟨rfl, rfl, ?_⟩
  rfl

/-- C3 amended: for every plain descriptor with a truthy path, the suite
list is the single element path with a trailing slash enforced (a slash
appended exactly when the path does not already end with one); and when
the descriptor carries no component list the rendered text is identical
to that of a component-free record, i.e. no Components line is emitted. -/
theorem apt_path_suites (repo : PackageRepositoryApt)
    (h : truthyStr repo.path = true) :
    apt_suites repo = Except.ok
      [if endsWithSlash (repo.path.getD "") then repo.path.getD ""
       else repo.path.getD "" ++ "/"] ∧
    (truthyList repo.components = false →
      ∀ host archs fmts suites url signed,
        construct_deb822_source host archs repo.components fmts suites url signed =
        construct_deb822_source host archs none fmts suites url signed) := by
  constructor
  · simp only [apt_suites, h, Bool.not_true, Bool.false_and, Bool.and_false,
      Bool.false_eq_true, if_false, if_true]
    cases hs : endsWithSlash (repo.path.getD "") <;> simp [hs]
  · intro hc host archs fmts suites url signed
    simp [construct_deb822_source, hc, truthyList_none]

/-- Witness for C3's amended theorem at a concrete path-only descriptor. -/
theorem apt_path_suites_witness :
    truthyStr wPathRepo.path = true ∧ apt_suites wPathRepo = Except.ok ["dir/subdir/"] :=
  ⟨rfl, ((apt_path_suites wPathRepo rfl).1).trans rfl⟩

/-- C4: for every bare plain descriptor (no path, no components, no
suites) the suite list is exactly the flat marker, and since the
component list is not truthy the rendered text is identical to that of a
component-free record, i.e. it contains no Components field. -/
theorem apt_bare_suites (repo : PackageRepositoryApt)
    (h1 : truthyStr repo.path = false) (h2 : truthyList repo.components = false)
    (h3 : truthyList repo.suites = false) :
    apt_suites repo = Except.ok ["/"] ∧
    (∀ host archs fmts suites url signed,
      construct_deb822_source host archs repo.components fmts suites url signed =
      construct_deb822_source host archs none fmts suites url signed) := by
  constructor
  · simp [apt_suites, h1, h2, h3]
  · intro host archs fmts suites url signed
    simp [construct_deb822_source, h2, truthyList_none]

/-- Witness for C4 at a concrete bare descriptor. -/
theorem apt_bare_suites_witness :
    apt_suites wBareRepo = Except.ok ["/"] ∧
    (FS.read (wMgr.install_sources_apt wEnv FS.empty wBareRepo).1
      "/etc/apt/sources.list.d/craft-bare.sources").getD "" =
      "Types: deb\nURIs: http://test.url/ubuntu\nSuites: /\nArchitectures: amd64\nSigned-By: /etc/apt/keyrings/craft-KEYID.gpg\n" :=
  ⟨(apt_bare_suites wBareRepo rfl rfl rfl).1, rfl⟩

/-- C5: a successful synchronization touches exactly the file in the
configured sources directory whose name passes the reserved names default
and default-security through unprefixed, prefixes every other record name
with the literal craft-, and appends the .sources suffix; when it reports
unchanged the directory state is untouched. -/
theorem install_sources_naming (mgr : AptSourcesManager) (env : Env) (fs : FS)
    (architectures components formats : Option (List String)) (name : String)
    (suites : List String) (url : String) (keyring_path : String) (fs₁ : FS) (b : Bool)
    (h : mgr.install_sources env fs architectures components formats name suites url
      keyring_path = (fs₁, Except.ok b)) :
    (b = true → fs₁ = FS.write fs
      (mgr.sources_list_d ++ "/" ++
        ((if name = "default" ∨ name = "default-security" then name
          else "craft-" ++ name) ++ ".sources"))
      (construct_deb822_source env.hostArchitecture architectures components formats
        suites url keyring_path)) ∧
    (b = false → fs₁ = fs) := by
  rw [← sourcesFileName_eq]
  simp only [AptSourcesManager.install_sources] at h
  split at h
  · simp at h
  · split at h
    · split at h
      · obtain ⟨rfl, hb⟩ := Prod.mk.injEq .. ▸ h
        injection hb with hb
        exact ⟨fun ht => absurd (hb.trans ht) (by simp), fun _ => rfl⟩
      · obtain ⟨rfl, hb⟩ := Prod.mk.injEq .. ▸ h
        injection hb with hb
        exact ⟨fun _ => rfl, fun hf => absurd (hb.trans hf) (by simp)⟩
    · obtain ⟨rfl, hb⟩ := Prod.mk.injEq .. ▸ h
      injection hb with hb
      exact ⟨fun _ => rfl, fun hf => absurd (hb.trans hf) (by simp)⟩

/-- Witness for C5 at a concrete record named test. -/
theorem install_sources_naming_witness :
    (wMgr.install_sources wEnv FS.empty none (some ["main"]) none "test" ["jammy"]
      "http://test.url/ubuntu" "/k.gpg").1 =
    FS.write FS.empty "/etc/apt/sources.list.d/craft-test.sources"
      (construct_deb822_source "amd64" none (some ["main"]) none ["jammy"]
        "http://test.url/ubuntu" "/k.gpg") := by
  have h := (install_sources_naming wMgr wEnv FS.empty none (some ["main"]) none "test"
    ["jammy"] "http://test.url/ubuntu" "/k.gpg" _ true rfl).1 rfl
  exact h.trans rfl


/-- C6: for every PPA descriptor that splits into owner and name, the
installation is exactly an installation of the canonical PPA record:
formats deb only, components main, suites the host codename, the
Launchpad archive URL for owner/name, record name ppa-owner_name, and the
keyring resolved from the Launchpad key lookup keyed by the original PPA
string. -/
theorem install_sources_ppa_canonical (mgr : AptSourcesManager) (env : Env)
    (fs : FS) (repo : PackageRepositoryAptPPA) (owner name : String)
    (h : split_ppa_parts repo.ppa = Except.ok (owner, name)) :
    mgr.install_sources_ppa env fs repo =
      mgr.install_sources env fs none (some ["main"]) (some ["deb"])
        ("ppa-" ++ owner ++ "_" ++ name) [env.codename]
        ("http://ppa.launchpad.net/" ++ owner ++ "/" ++ name ++ "/ubuntu")
        (env.keyringFor (env.ppaKeyId repo.ppa) mgr.keyrings_dir) := by
  simp only [AptSourcesManager.install_sources_ppa, h]

/-- Witness for C6 at the concrete descriptor deadsnakes/ppa with host
codename jammy. -/
theorem install_sources_ppa_canonical_witness :
    split_ppa_parts wPpaRepo.ppa = Except.ok ("deadsnakes", "ppa") ∧
    wMgr.install_sources_ppa wEnv FS.empty wPpaRepo =
      wMgr.install_sources wEnv FS.empty none (some ["main"]) (some ["deb"])
        "ppa-deadsnakes_ppa" ["jammy"]
        "http://ppa.launchpad.net/deadsnakes/ppa/ubuntu"
        (wEnv.keyringFor (wEnv.ppaKeyId "deadsnakes/ppa") wMgr.keyrings_dir) :=
  ⟨rfl, (install_sources_ppa_canonical wMgr wEnv FS.empty wPpaRepo "deadsnakes" "ppa"
    rfl).trans rfl⟩

/-- C7: for every cloud descriptor, an incompatible (codename, cloud,
pocket) combination fails with the cloud-archive error naming cloud,
pocket and host codename, leaving the directory state untouched (the
check precedes keyring resolution and any write); a compatible one
installs exactly the canonical cloud record: formats deb only, components
main, suites codename-pocket/cloud, the fixed UCA archive URL, the fixed
UCA key identifier and record name cloud-cloud. -/
theorem install_sources_uca_canonical (mgr : AptSourcesManager) (env : Env)
    (fs : FS) (repo : PackageRepositoryAptUCA) :
    (env.ucaCompatible env.codename repo.cloud repo.pocket = false →
      mgr.install_sources_uca env fs repo =
        (fs, Except.error
          (AptError.aptUCAInstallError repo.cloud repo.pocket env.codename))) ∧
    (env.ucaCompatible env.codename repo.cloud repo.pocket = true →
      mgr.install_sources_uca env fs repo =
        mgr.install_sources env fs none (some ["main"]) (some ["deb"])
          ("cloud-" ++ repo.cloud)
          [env.codename ++ "-" ++ repo.pocket ++ "/" ++ repo.cloud]
          UCA_ARCHIVE (env.keyringFor UCA_KEY_ID mgr.keyrings_dir)) := by
  constructor <;> intro hc <;>
    simp only [AptSourcesManager.install_sources_uca, check_release_compatibility, hc,
      Bool.false_eq_true, if_false, if_true]

/-- Witness for C7: the incompatible case errors without touching the
state, the compatible case installs the canonical record, at the concrete
descriptor cloud wallaby pocket updates with host codename jammy. -/
theorem install_sources_uca_canonical_witness :
    wMgr.install_sources_uca wEnvIncompat FS.empty wUcaRepo =
      (FS.empty, Except.error (AptError.aptUCAInstallError "wallaby" "updates" "jammy")) ∧
    wMgr.install_sources_uca wEnv FS.empty wUcaRepo =
      wMgr.install_sources wEnv FS.empty none (some ["main"]) (some ["deb"])
        "cloud-wallaby" ["jammy-updates/wallaby"] UCA_ARCHIVE
        (wEnv.keyringFor UCA_KEY_ID wMgr.keyrings_dir) :=
  ⟨((install_sources_uca_canonical wMgr wEnvIncompat FS.empty wUcaRepo).1 rfl).trans rfl,
   ((install_sources_uca_canonical wMgr wEnv FS.empty wUcaRepo).2 rfl).trans rfl⟩

theorem splitChar_not_mem (c : Char) (l : List Char) (h : c ∉ l) :
    splitChar c l = [l] := by
  induction l with
  | nil => rfl
  | cons x xs ih =>
    have hx : ¬ x = c := fun e => h (e ▸ List.mem_cons_self x xs)
    simp only [splitChar, ih (fun hm => h (List.mem_cons_of_mem x hm)), if_neg hx]

/-- C8: a keyring path that is not an existing regular file makes the
installation fail with the keyring-missing error carrying that path, and
a PPA string without the separating slash makes it fail with the
PPA-format error carrying the original string; both errors leave the
directory state untouched, so no source file is created or modified. -/
theorem install_error_state_unchanged (mgr : AptSourcesManager) (env : Env) (fs : FS) :
    (∀ (architectures components formats : Option (List String)) (name : String)
      (suites : List String) (url : String) (keyring_path : String),
      env.isFile keyring_path = false →
      mgr.install_sources env fs architectures components formats name suites url
        keyring_path =
        (fs, Except.error (AptError.aptGPGKeyringError keyring_path))) ∧
    (∀ repo : PackageRepositoryAptPPA, ('/' : Char) ∉ repo.ppa.data →
      mgr.install_package_repository_sources env fs (PackageRepository.ppa repo) =
        { fs := fs, archCalls := [],
          result := Except.error (AptError.aptPPAInstallError repo.ppa) }) := by
  constructor
  · intro architectures components formats name suites url keyring_path hk
    simp [AptSourcesManager.install_sources, hk]
  · intro repo hp
    have hsplit : split_ppa_parts repo.ppa =
        Except.error (AptError.aptPPAInstallError repo.ppa) := by
      simp [split_ppa_parts, splitChar_not_mem _ _ hp]
    simp [AptSourcesManager.install_package_repository_sources,
      AptSourcesManager.install_sources_ppa, hsplit]

/-- Witness for C8: a missing keyring file and the malformed PPA string
no-slash-here both fail with the expected errors and unchanged state. -/
theorem install_error_state_unchanged_witness :
    wMgr.install_sources wEnvNoFile FS.empty none none none "test" ["jammy"]
      "http://test.url/ubuntu" "/missing.gpg" =
      (FS.empty, Except.error (AptError.aptGPGKeyringError "/missing.gpg")) ∧
    wMgr.install_package_repository_sources wEnvNoFile FS.empty
      (PackageRepository.ppa wBadPpaRepo) =
      { fs := FS.empty, archCalls := [],
        result := Except.error (AptError.aptPPAInstallError "no-slash-here") } :=
  ⟨(install_error_state_unchanged wMgr wEnvNoFile FS.empty).1 none none none "test"
      ["jammy"] "http://test.url/ubuntu" "/missing.gpg" rfl,
   (install_error_state_unchanged wMgr wEnvNoFile FS.empty).2 wBadPpaRepo (by decide)⟩


theorem truthyList_some_ne (l : List String) (h : l ≠ []) :
    truthyList (some l) = true := by
  cases l with
  | nil => exact absurd rfl h
  | cons a as => rfl

/-- C9: for plain repositories, architecture registration runs exactly
when the synchronization reported changed and the descriptor declared a
truthy architecture list; it then invokes dpkg once per declared
architecture in list order, stopping at the first failing architecture
without attempting the remaining ones; PPA and cloud repositories never
trigger registration. -/
theorem architecture_registration (mgr : AptSourcesManager) (env : Env) (fs : FS) :
    (∀ (repo : PackageRepositoryApt) (fs₁ : FS) (b : Bool),
      mgr.install_sources_apt env fs repo = (fs₁, Except.ok b) →
      b = false ∨ truthyList repo.architectures = false →
      mgr.install_package_repository_sources env fs (PackageRepository.apt repo) =
        { fs := fs₁, archCalls := [], result := Except.ok b }) ∧
    (∀ (repo : PackageRepositoryApt) (fs₁ : FS) (archs : List String),
      mgr.install_sources_apt env fs repo = (fs₁, Except.ok true) →
      repo.architectures = some archs → archs ≠ [] →
      (∀ a ∈ archs, env.addArchOk a = true) →
      mgr.install_package_repository_sources env fs (PackageRepository.apt repo) =
        { fs := fs₁, archCalls := archs, result := Except.ok true }) ∧
    (∀ (repo : PackageRepositoryApt) (fs₁ : FS) (pre : List String) (a : String)
      (post : List String),
      mgr.install_sources_apt env fs repo = (fs₁, Except.ok true) →
      repo.architectures = some (pre ++ a :: post) →
      (∀ x ∈ pre, env.addArchOk x = true) → env.addArchOk a = false →
      mgr.install_package_repository_sources env fs (PackageRepository.apt repo) =
        { fs := fs₁, archCalls := pre ++ [a],
          result := Except.error (AptError.calledProcessError a) }) ∧
    (∀ repo : PackageRepositoryAptPPA,
      (mgr.install_package_repository_sources env fs
        (PackageRepository.ppa repo)).archCalls = []) ∧
    (∀ repo : PackageRepositoryAptUCA,
      (mgr.install_package_repository_sources env fs
        (PackageRepository.uca repo)).archCalls = []) := by
  refine ⟨?_, ?_, ?_, fun repo => rfl, fun repo => rfl⟩
  · intro repo fs₁ b h hcond
    rw [install_pkg_apt_of_inst _ _ _ _ _ _ h]
    rcases hcond with rfl | hf
    · simp
    · simp [hf]
  · intro repo fs₁ archs h harch hne hok
    rw [install_pkg_apt_of_inst _ _ _ _ _ _ h]
    simp only [harch, truthyList_some_ne archs hne, Bool.and_self, if_true,
      Option.getD_some]
    rw [add_architecture_all_ok env archs hok]
  · intro repo fs₁ pre a post h harch hpre ha
    rw [install_pkg_apt_of_inst _ _ _ _ _ _ h]
    have htr : truthyList (some (pre ++ a :: post)) = true :=
      truthyList_some_ne _ (by simp)
    simp only [harch, htr, Bool.and_self, if_true, Option.getD_some]
    rw [add_architecture_first_fail env pre a post hpre ha]

/-- Witness for C9: with both architectures registering successfully the
trace is amd64 then arm64; when arm64 fails the trace stops there and the
run errors. -/
theorem architecture_registration_witness :
    wMgr.install_package_repository_sources wEnv FS.empty
      (PackageRepository.apt wAptRepo) =
      { fs := (wMgr.install_sources_apt wEnv FS.empty wAptRepo).1,
        archCalls := ["amd64", "arm64"], result := Except.ok true } ∧
    wMgr.install_package_repository_sources wEnvArchFail FS.empty
      (PackageRepository.apt wAptRepo) =
      { fs := (wMgr.install_sources_apt wEnvArchFail FS.empty wAptRepo).1,
        archCalls := ["amd64", "arm64"],
        result := Except.error (AptError.calledProcessError "arm64") } :=
  ⟨(architecture_registration wMgr wEnv FS.empty).2.1 wAptRepo _ ["amd64", "arm64"]
      rfl rfl (by decide) (by decide),
   (architecture_registration wMgr wEnvArchFail FS.empty).2.2.1 wAptRepo _ ["amd64"]
      "arm64" [] rfl rfl (by decide) rfl⟩

theorem install_sources_apt_changed_write (mgr : AptSourcesManager) (env : Env)
    (fs : FS) (repo : PackageRepositoryApt) (fs₁ : FS)
    (h : mgr.install_sources_apt env fs repo = (fs₁, Except.ok true)) :
    ∃ p c, fs₁ = FS.write fs p c := by
  simp only [AptSourcesManager.install_sources_apt] at h
  split at h
  · simp at h
  · rename_i suites hs
    simp only [AptSourcesManager.install_sources] at h
    split at h
    · simp at h
    · split at h
      · split at h
        · simp at h
        · exact ⟨_, _, (Prod.mk.injEq .. ▸ h).1.symm⟩
      · exact ⟨_, _, (Prod.mk.injEq .. ▸ h).1.symm⟩

/-- C10: for a plain repository whose synchronization reported changed,
when a later architecture registration fails the run ends in that error
with the directory state still the post-write state (the newly written
file remains: the final state is the initial state plus exactly one
recorded write) and with the registrations of the earlier architectures
already made, in order, with no rollback. -/
theorem write_persists_on_registration_failure (mgr : AptSourcesManager) (env : Env)
    (fs : FS) (repo : PackageRepositoryApt) (fs₁ : FS) (pre : List String)
    (a : String) (post : List String)
    (harch : repo.architectures = some (pre ++ a :: post))
    (hpre : ∀ x ∈ pre, env.addArchOk x = true) (ha : env.addArchOk a = false)
    (hinst : mgr.install_sources_apt env fs repo = (fs₁, Except.ok true)) :
    mgr.install_package_repository_sources env fs (PackageRepository.apt repo) =
      { fs := fs₁, archCalls := pre ++ [a],
        result := Except.error (AptError.calledProcessError a) } ∧
    ∃ p c, fs₁ = FS.write fs p c := by
  refine ⟨?_, install_sources_apt_changed_write _ _ _ _ _ hinst⟩
  rw [install_pkg_apt_of_inst _ _ _ _ _ _ hinst]
  have htr : truthyList (some (pre ++ a :: post)) = true :=
    truthyList_some_ne _ (by simp)
  simp only [harch, htr, Bool.and_self, if_true, Option.getD_some]
  rw [add_architecture_first_fail env pre a post hpre ha]

/-- Witness for C10 at the concrete repository with architectures amd64
and arm64 where registering arm64 fails. -/
theorem write_persists_on_registration_failure_witness :
    wMgr.install_package_repository_sources wEnvArchFail FS.empty
      (PackageRepository.apt wAptRepo) =
      { fs := (wMgr.install_sources_apt wEnvArchFail FS.empty wAptRepo).1,
        archCalls := ["amd64"] ++ ["arm64"],
        result := Except.error (AptError.calledProcessError "arm64") } ∧
    ∃ p c, (wMgr.install_sources_apt wEnvArchFail FS.empty wAptRepo).1 =
      FS.write FS.empty p c :=
  write_persists_on_registration_failure wMgr wEnvArchFail FS.empty wAptRepo _
    ["amd64"] "arm64" [] rfl (by decide) rfl rfl

end CraftArchives
